import Mathlib

/-
Verification development for the Cyber_Crime_Analysis2 repository.

We give a shallow embedding of the two data pipelines the claims are about:

* `modules/data_adapter.py` : the schema normalizer (`map_global_schema`,
  `load_best_dataset` given an already-loaded table), modelled over a small
  dataframe model (`DF`).  Cells are `Value`s (null, string, rational number,
  or instant).  The library behaviours of pandas that the adapter relies on
  (`to_numeric(errors=coerce)`, `to_datetime(errors=coerce)`, `astype(str)`,
  column assignment, `df.get`) are modelled explicitly below.  Random
  placeholder synthesis (`np.random.choice` and friends) is modelled by an
  explicit oracle supplying one pick per row; picks into a fixed vocabulary
  are reduced modulo its length so every synthesized value is a member of the
  vocabulary, as in the source.

* `generate_expanded_data.py` : the synthetic generator.  The process-wide
  `random` module (seeded once with 42 at import time) is modelled as a single
  stream `g : Nat -> Nat` of raw draws consumed in program order; each record
  consumes twenty draws at fixed offsets, mirroring the order of the calls in
  `generate_attack_record` (including the timestamp draw, which the source
  takes from the very same seeded stream).
-/

/-- A cell of a dataframe: missing/NaN, a string, a number, or an instant. -/
inductive Value where
  | vNull : Value
  | vStr : String → Value
  | vNum : ℚ → Value
  | vTime : Int → Value
deriving DecidableEq

open Value

/-- `pd.to_numeric(x, errors='coerce')` on one cell: numbers survive, anything
else becomes NaN (`none`).  (Numeric text would parse in pandas; in this model
numeric CSV cells are already `vNum`, so remaining strings are non-numeric.) -/
def toNum : Value → Option ℚ
  | vNum q => some q
  | _ => none

/-- `pd.to_datetime(x, errors='coerce')` on one cell: instants survive,
anything else becomes NaT (`none`). -/
def toTime : Value → Option Int
  | vTime t => some t
  | _ => none

/-- Python `str(x)` as applied by `astype(str)` on one cell. -/
def pyStr : Value → String
  | vNull => "None"
  | vStr s => s
  | vNum q => toString q
  | vTime t => toString t

/-- Python substring test `needle in hay` on lists of characters. -/
def subList (nd : List Char) : List Char → Bool
  | [] => nd.isEmpty
  | c :: rest => nd.isPrefixOf (c :: rest) || subList nd rest

/-- Python substring test `needle in hay` on strings. -/
def strContains (hay nd : String) : Bool := subList nd.toList hay.toList

/-- ASCII lowercase of one character (the labels the adapter lowercases are
ASCII). -/
def asciiLower (c : Char) : Char :=
  if 65 ≤ c.toNat ∧ c.toNat ≤ 90 then Char.ofNat (c.toNat + 32) else c

/-- Python `str.lower()` on the ASCII strings in play. -/
def strLower (s : String) : String := String.mk (s.toList.map asciiLower)

/-- A dataframe: a row count and an ordered association list of named
columns.  Each column is a total function from row index to cell (only
indices below `nrows` are meaningful). -/
structure DF where
  nrows : Nat
  cols : List (String × (Nat → Value))

/-- `name in df.columns`. -/
def hasCol (df : DF) (c : String) : Bool := df.cols.any (fun p => p.1 == c)

/-- Fetch a column by name. -/
def getCol (df : DF) (c : String) : Option (Nat → Value) :=
  (df.cols.find? (fun p => p.1 == c)).map Prod.snd

/-- Fetch a single cell (null when the column is absent). -/
def getCell (df : DF) (c : String) (i : Nat) : Value :=
  ((getCol df c).getD (fun _ => vNull)) i

/-- `df.get(name, fallback)` restricted to column fallbacks: the column when
present, otherwise the given fallback column. -/
def colOr (df : DF) (c : String) (fb : Nat → Value) : Nat → Value :=
  (getCol df c).getD fb

/-- Column assignment `df[c] = f`: replace the first column named `c` in
place, or append a new column at the end (pandas semantics). -/
def setColList (c : String) (f : Nat → Value) :
    List (String × (Nat → Value)) → List (String × (Nat → Value))
  | [] => [(c, f)]
  | p :: rest => if p.1 == c then (c, f) :: rest else p :: setColList c f rest

/-- Column assignment on a dataframe. -/
def setCol (df : DF) (c : String) (f : Nat → Value) : DF :=
  ⟨df.nrows, setColList c f df.cols⟩

/-- `if c not in df.columns: df[c] = f` — the adapter's pervasive idiom. -/
def ensureCol (df : DF) (c : String) (f : Nat → Value) : DF :=
  if hasCol df c then df else setCol df c f

@[simp] theorem nrows_setCol (df : DF) (c : String) (f : Nat → Value) :
    (setCol df c f).nrows = df.nrows := rfl

@[simp] theorem nrows_ensureCol (df : DF) (c : String) (f : Nat → Value) :
    (ensureCol df c f).nrows = df.nrows := by
  unfold ensureCol; split <;> rfl

theorem hasCol_setColList (c n : String) (f : Nat → Value)
    (l : List (String × (Nat → Value))) :
    (setColList c f l).any (fun p => p.1 == n) =
      ((n == c) || l.any (fun p => p.1 == n)) := by
  induction l with
  | nil => simp [setColList, BEq.comm]
  | cons p rest ih =>
    by_cases hp : p.1 = c
    · simp only [setColList, hp, beq_self_eq_true, if_true, List.any_cons]
      by_cases hn : n = c
      · simp [hn]
      · simp [hn, show (c == n) = false from by simp [Ne.symm hn]]
    · simp only [setColList, show (p.1 == c) = false from by simp [hp],
        Bool.false_eq_true, if_false, List.any_cons, ih]
      cases p.1 == n <;> cases n == c <;> simp

@[simp] theorem hasCol_setCol (df : DF) (c n : String) (f : Nat → Value) :
    hasCol (setCol df c f) n = ((n == c) || hasCol df n) := by
  simp [hasCol, setCol, hasCol_setColList]

@[simp] theorem hasCol_ensureCol (df : DF) (c n : String) (f : Nat → Value) :
    hasCol (ensureCol df c f) n = ((n == c) || hasCol df n) := by
  unfold ensureCol
  split
  · next h =>
    by_cases hn : n = c
    · simp [hn, h]
    · simp [hn]
  · simp

theorem getCol_setColList (c n : String) (f : Nat → Value)
    (l : List (String × (Nat → Value))) :
    ((setColList c f l).find? (fun p => p.1 == n)).map Prod.snd =
      if n = c then some f
      else (l.find? (fun p => p.1 == n)).map Prod.snd := by
  induction l with
  | nil =>
    by_cases hn : n = c
    · subst hn; simp [setColList, List.find?]
    · simp [setColList, List.find?, hn,
        show (c == n) = false from by simp [Ne.symm hn]]
  | cons p rest ih =>
    by_cases hp : p.1 = c
    · by_cases hn : n = c
      · subst hn; simp [setColList, hp, List.find?]
      · have h1 : (c == n) = false := by simp [Ne.symm hn]
        have h2 : (p.1 == n) = false := by rw [hp]; exact h1
        simp [setColList, hp, List.find?, h1, h2, hn]
    · by_cases hpn : p.1 = n
      · have hn : ¬ n = c := fun h => hp (hpn.trans h)
        have h1 : (p.1 == c) = false := by simp [hp]
        have h2 : (p.1 == n) = true := by simp [hpn]
        simp [setColList, h1, h2, List.find?, hn]
      · have h1 : (p.1 == c) = false := by simp [hp]
        have h2 : (p.1 == n) = false := by simp [hpn]
        simp [setColList, h1, h2, List.find?, ih]

@[simp] theorem getCol_setCol (df : DF) (c n : String) (f : Nat → Value) :
    getCol (setCol df c f) n =
      if n = c then some f else getCol df n := by
  simp [getCol, setCol, getCol_setColList]

theorem findCol_isSome_of_any {n : String} :
    ∀ (l : List (String × (Nat → Value))), l.any (fun p => p.1 == n) = true →
      ∃ g, (l.find? (fun p => p.1 == n)).map Prod.snd = some g
  | [], h => by simp at h
  | p :: rest, h => by
      rcases hpn : (p.1 == n) with _ | _
      · simp only [List.any_cons, hpn, Bool.false_or] at h
        obtain ⟨g, hg⟩ := findCol_isSome_of_any rest h
        exact ⟨g, by simp [List.find?, hpn, hg]⟩
      · exact ⟨p.2, by simp [List.find?, hpn]⟩

theorem any_of_findCol {n : String} :
    ∀ (l : List (String × (Nat → Value))) (g : Nat → Value),
      (l.find? (fun p => p.1 == n)).map Prod.snd = some g →
      l.any (fun p => p.1 == n) = true
  | [], g, h => by simp [List.find?] at h
  | p :: rest, g, h => by
      rcases hpn : (p.1 == n) with _ | _
      · simp only [List.find?, hpn] at h
        simp [List.any_cons, hpn, any_of_findCol rest g h]
      · simp [List.any_cons, hpn]

theorem getCol_isSome_of_hasCol {df : DF} {n : String} (h : hasCol df n = true) :
    ∃ g, getCol df n = some g :=
  findCol_isSome_of_any df.cols h

theorem hasCol_of_getCol {df : DF} {n : String} {g : Nat → Value}
    (h : getCol df n = some g) : hasCol df n = true :=
  any_of_findCol df.cols g h

@[simp] theorem getCol_ensureCol (df : DF) (c n : String) (f : Nat → Value) :
    getCol (ensureCol df c f) n =
      if n = c then some ((getCol df c).getD f) else getCol df n := by
  unfold ensureCol
  split
  · next h =>
    by_cases hn : n = c
    · subst hn
      obtain ⟨g, hg⟩ := getCol_isSome_of_hasCol h
      simp [hg]
    · simp [hn]
  · next h =>
    by_cases hn : n = c
    · subst hn
      rcases hg : getCol df n with _ | g
      · simp [hg]
      · exact absurd (hasCol_of_getCol hg) h
    · simp [hn]

/-! ### Schema normalizer: `modules/data_adapter.py` -/

namespace Adapter

/-- `CANONICAL_COLUMNS` (data_adapter.py lines 17-23). -/
def CANONICAL_COLUMNS : List String :=
  ["Timestamp", "Device Information", "Attack Type", "Anomaly Scores",
   "Packet Length", "Source Port", "Destination Port", "Source IP Address",
   "Destination IP Address", "Protocol", "Action Taken", "IDS/IPS Alerts",
   "Malware Indicators", "Firewall Logs", "Proxy Information",
   "Attack Signature", "Severity Level"]

/-- Vocabulary for synthesized device types (line 61). -/
def device_types : List String :=
  ["Network Sensor", "Firewall", "IDS", "Server", "Workstation", "IoT Device"]

/-- Vocabulary for synthesized attack types (line 70). -/
def attack_types_syn : List String :=
  ["DDoS", "SQL Injection", "XSS", "Malware", "Phishing", "Zero-day Exploit"]

/-- Vocabulary for synthesized protocols (line 101). -/
def protocols_syn : List String :=
  ["TCP", "UDP", "ICMP", "HTTP", "HTTPS", "DNS", "SMTP"]

/-- Vocabulary for synthesized actions (line 109). -/
def actions_syn : List String :=
  ["Blocked", "Allowed", "Quarantined", "Logged", "Alerted", "Escalated"]

/-- Vocabulary for synthesized IDS/IPS alerts (line 114). -/
def alert_types : List String :=
  ["Signature Match", "Anomaly Detected", "Policy Violation", "No Alert",
   "False Positive"]

/-- Vocabulary for synthesized malware indicators (line 118). -/
def indicators : List String :=
  ["None Detected", "Suspicious Binary", "Known Malware", "Potential Backdoor",
   "Ransomware Pattern"]

/-- Vocabulary for synthesized firewall log entries (line 122). -/
def log_types : List String :=
  ["Connection Blocked", "Traffic Allowed", "Rate Limited", "NAT Translation",
   "VPN Access"]

/-- Vocabulary for synthesized proxy information (line 126). -/
def proxy_info : List String :=
  ["Direct Connection", "Via Corporate Proxy", "VPN Endpoint", "TOR Exit Node",
   "Unknown Proxy"]

/-- Vocabulary for the random severity-label fallback (line 145). -/
def severity_levels : List String := ["Low", "Medium", "High", "Critical"]

/-- Destination-port pool (line 84): a few well-known ports plus the
registered/ephemeral range. -/
def common_ports : List ℕ := [80, 443, 22, 21, 25, 53] ++ List.range' 1024 64511

/-- `country_coords` for the geo enrichment (lines 153-160). -/
def country_coords : List (String × (ℚ × ℚ)) :=
  [("USA", (37.0902, -95.7129)), ("China", (35.8617, 104.1954)),
   ("Russia", (61.5240, 105.3188)), ("UK", (55.3781, -3.4360)),
   ("India", (20.5937, 78.9629))]

/-- Oracle feeding the adapter's per-row `np.random` draws: one pick per
row for each synthesized column.  Picks into a fixed vocabulary are taken
modulo its length, so every synthesized value is a vocabulary member, as with
`np.random.choice`.  The dotted-quad construction of `generate_ip`
(lines 90-93, weighted 30 percent private) and the beta-distributed anomaly
scores are abstracted as arbitrary provided strings/rationals. -/
structure Oracle where
  device : Nat → Nat
  attackType : Nat → Nat
  anomaly : Nat → ℚ
  packetLen : Nat → Nat
  srcPort : Nat → Nat
  dstPort : Nat → Nat
  srcIp : Nat → String
  dstIp : Nat → String
  proto : Nat → Nat
  action : Nat → Nat
  alerts : Nat → Nat
  malware : Nat → Nat
  firewall : Nat → Nat
  proxy : Nat → Nat
  sigNum : Nat → Nat
  sevLvl : Nat → Nat

/-- Jan 1 of a given year as an instant, for
`pd.to_datetime(Year.astype(str) + '-01-01')` (line 54).  The exact calendar
arithmetic pandas performs is abstracted into a fixed linear encoding. -/
def year_jan1 (q : ℚ) : Int := ⌊q⌋ * 31536000

/-- The severity label synthesized from a numeric `attack_severity`
(lines 137-139). -/
def sev_label_of_num (x : ℚ) : String :=
  if x ≥ 8 then "Critical"
  else if x ≥ 6 then "High"
  else if x ≥ 4 then "Medium"
  else "Low"

/-- The severity label synthesized from `Financial Loss (in Million $)`
(lines 141-143). -/
def sev_label_of_loss (x : ℚ) : String :=
  if x > 100 then "Critical"
  else if x > 50 then "High"
  else if x > 10 then "Medium"
  else "Low"

/-- `sev_to_num` (lines 227-236): categorical severity label to number,
applied to the lowercased label. -/
def sev_to_num (x : String) : ℚ :=
  if strContains x "critical" then 9
  else if strContains x "high" then 7
  else if strContains x "medium" then 5
  else if strContains x "low" then 2
  else 5

/-- `loss_to_sev` (lines 240-247): financial loss in millions to severity. -/
def loss_to_sev (x : ℚ) : ℚ :=
  if x > 100 then 9
  else if x > 50 then 7
  else if x > 10 then 5
  else 3

/-- The affected-user-count severity rule (line 251). -/
def users_to_sev (x : ℚ) : ℚ :=
  if x > 100000 then 7 else if x > 10000 then 5 else 3

/-- Latitude of a country via `country_coords`, `fillna(0)` (lines 161-163). -/
def country_lat (v : Value) : ℚ :=
  ((country_coords.lookup (pyStr v)).map Prod.fst).getD 0

/-- Longitude of a country via `country_coords`, `fillna(0)` (lines 161-164). -/
def country_lon (v : Value) : ℚ :=
  ((country_coords.lookup (pyStr v)).map Prod.snd).getD 0

/-- Geo enrichment (lines 151-164): when a `Country` column is present and
`Latitude` is not, merge in approximate coordinates (`fillna(0)`). -/
def step_geo (df : DF) : DF :=
  if hasCol df "Country" && !(hasCol df "Latitude") then
    setCol (setCol df "Latitude" (fun i => vNum (country_lat (getCell df "Country" i))))
      "Longitude" (fun i => vNum (country_lon (getCell df "Country" i)))
  else df

/-- The `for c in CANONICAL_COLUMNS` placeholder loop (lines 171-173). -/
def fill_canonical (df : DF) : DF :=
  CANONICAL_COLUMNS.foldl (fun d c => ensureCol d c (fun _ => vNull)) df

/-- First phase of `map_global_schema` (lines 48-167): build `mapped` from
`df` by filling every missing canonical column, in source order, up to the
timestamp coercion. -/
def map_phaseA_pre (o : Oracle) (now : Int) (df : DF) : DF :=
  -- lines 50-56: Timestamp from Year, else the current instant
  let m1 := ensureCol df "Timestamp"
    (if hasCol df "Year" then (fun i => vTime (year_jan1 ((toNum (getCell df "Year" i)).getD 0)))
     else (fun _ => vTime now))
  -- lines 59-62
  let m2 := ensureCol m1 "Device Information"
    (fun i => vStr (device_types.getD (o.device i % device_types.length) ""))
  -- lines 64-71: copy `attack_type` when present, else synthesize
  let m3 := ensureCol m2 "Attack Type"
    (if hasCol m2 "attack_type" then colOr m2 "attack_type" (fun _ => vNull)
     else (fun i => vStr (attack_types_syn.getD (o.attackType i % attack_types_syn.length) "")))
  -- lines 74-76
  let m4 := ensureCol m3 "Anomaly Scores" (fun i => vNum (o.anomaly i))
  -- lines 79-85
  let m5 := ensureCol m4 "Packet Length" (fun i => vNum (64 + o.packetLen i % 1436))
  let m6 := ensureCol m5 "Source Port" (fun i => vNum (1024 + o.srcPort i % 64511))
  let m7 := ensureCol m6 "Destination Port"
    (fun i => vNum (common_ports.getD (o.dstPort i % common_ports.length) 0))
  -- lines 88-97
  let m8 := ensureCol m7 "Source IP Address" (fun i => vStr (o.srcIp i))
  let m9 := ensureCol m8 "Destination IP Address" (fun i => vStr (o.dstIp i))
  -- lines 100-102
  let m10 := ensureCol m9 "Protocol"
    (fun i => vStr (protocols_syn.getD (o.proto i % protocols_syn.length) ""))
  -- lines 105-110: Action Taken from `outcome` when present, else synthesize
  let m11 := ensureCol m10 "Action Taken"
    (if hasCol m10 "outcome" then colOr m10 "outcome" (fun _ => vNull)
     else (fun i => vStr (actions_syn.getD (o.action i % actions_syn.length) "")))
  -- lines 113-127
  let m12 := ensureCol m11 "IDS/IPS Alerts"
    (fun i => vStr (alert_types.getD (o.alerts i % alert_types.length) ""))
  let m13 := ensureCol m12 "Malware Indicators"
    (fun i => vStr (indicators.getD (o.malware i % indicators.length) ""))
  let m14 := ensureCol m13 "Firewall Logs"
    (fun i => vStr (log_types.getD (o.firewall i % log_types.length) ""))
  let m15 := ensureCol m14 "Proxy Information"
    (fun i => vStr (proxy_info.getD (o.proxy i % proxy_info.length) ""))
  -- lines 130-133: signature synthesized from the Attack Type column
  let m16 := ensureCol m15 "Attack Signature"
    (fun i => vStr (pyStr (getCell m15 "Attack Type" i) ++ "_" ++
      toString (1000 + o.sigNum i % 9000)))
  -- lines 135-147: severity label from attack_severity, else financial loss,
  -- else a random label
  let m17 := ensureCol m16 "Severity Level"
    (if hasCol m16 "attack_severity" then
      (fun i => vStr (sev_label_of_num ((toNum (getCell m16 "attack_severity" i)).getD 0)))
     else if hasCol m16 "Financial Loss (in Million $)" then
      (fun i => vStr (sev_label_of_loss ((toNum (getCell m16 "Financial Loss (in Million $)" i)).getD 0)))
     else
      (fun i => vStr (severity_levels.getD (o.sevLvl i % severity_levels.length) "")))
  -- lines 151-164
  let m18 := step_geo m17
  -- line 167: coerce Timestamp, NaT replaced by the current instant
  setCol m18 "Timestamp"
    (fun i => vTime ((toTime (getCell m18 "Timestamp" i)).getD now))

/-- `mapped` after the whole first phase (lines 48-173): the canonical
placeholder loop runs after the timestamp coercion. -/
def map_phaseA (o : Oracle) (now : Int) (df : DF) : DF :=
  fill_canonical (map_phaseA_pre o now df)

/-- Standardized `timestamp` (lines 188-195). -/
def timestamp_cell (now : Int) (m : DF) : Nat → Value :=
  if hasCol m "Timestamp" then
    fun i => vTime ((toTime (getCell m "Timestamp" i)).getD now)
  else if hasCol m "timestamp" then
    fun i => vTime ((toTime (getCell m "timestamp" i)).getD now)
  else if hasCol m "Year" then
    fun i => vTime (year_jan1 ((toNum (getCell m "Year" i)).getD 0))
  else fun _ => vTime now

/-- Standardized `attack_type` (lines 198-203), before the final
`astype(str)`. -/
def attack_type_cell (m : DF) : Nat → Value :=
  if hasCol m "Attack Type" then colOr m "Attack Type" (fun _ => vNull)
  else if hasCol m "attack_type" then colOr m "attack_type" (fun _ => vNull)
  else colOr m "Attack Signature" (fun _ => vStr "Unknown")

/-- Standardized `target_system` (lines 206-208), before `astype(str)`. -/
def target_system_cell (m : DF) : Nat → Value :=
  colOr m "Device Information"
    (colOr m "Target" (colOr m "Target Industry" (fun _ => vStr "Unknown System")))

/-- Standardized `location` (lines 211-216), before `astype(str)`. -/
def location_cell (m : DF) : Nat → Value :=
  if hasCol m "location" then colOr m "location" (fun _ => vNull)
  else if hasCol m "Country" then colOr m "Country" (fun _ => vNull)
  else fun _ => vStr "Unknown"

/-- Standardized `industry` (line 219). -/
def industry_cell (m : DF) : Nat → Value :=
  colOr m "Industry"
    (colOr m "industry" (colOr m "Target Industry" (fun _ => vStr "Various")))

/-- Standardized numeric `attack_severity` (lines 222-253). -/
def severity_cell (m : DF) : Nat → Value :=
  if hasCol m "attack_severity" then
    fun i => vNum ((toNum (getCell m "attack_severity" i)).getD 5)
  else if hasCol m "Severity Level" then
    fun i => vNum (sev_to_num (strLower (pyStr (getCell m "Severity Level" i))))
  else if hasCol m "Financial Loss (in Million $)" then
    fun i => vNum (loss_to_sev ((toNum (getCell m "Financial Loss (in Million $)" i)).getD 0))
  else if hasCol m "Number of Affected Users" then
    fun i => vNum (users_to_sev ((toNum (getCell m "Number of Affected Users" i)).getD 0))
  else fun _ => vNum 5

/-- Standardized `data_compromised_GB` (lines 256-266). -/
def data_gb_cell (m : DF) : Nat → Value :=
  if hasCol m "data_compromised_GB" then
    fun i => vNum ((toNum (getCell m "data_compromised_GB" i)).getD 0)
  else if hasCol m "Financial Loss (in Million $)" then
    fun i => vNum (((toNum (getCell m "Financial Loss (in Million $)" i)).getD 0) * (1/2))
  else if hasCol m "Number of Affected Users" then
    fun i => vNum (((toNum (getCell m "Number of Affected Users" i)).getD 0) * (1/1000))
  else fun _ => vNum 0

/-- Standardized `outcome` (lines 269-277). -/
def outcome_cell (m : DF) : Nat → Value :=
  if hasCol m "Action Taken" then colOr m "Action Taken" (fun _ => vNull)
  else if hasCol m "outcome" then colOr m "outcome" (fun _ => vNull)
  else if hasCol m "Incident Resolution Time (in Hours)" then
    fun i => vStr (if ((toNum (getCell m "Incident Resolution Time (in Hours)" i)).getD 0) > 0
      then "Resolved" else "Unknown")
  else fun _ => vStr "Unknown"

/-- Standardized `attacker_ip` (line 280). -/
def attacker_ip_cell (m : DF) : Nat → Value :=
  colOr m "Source IP Address" (colOr m "attacker_ip" (fun _ => vStr "0.0.0.0"))

/-- Standardized `target_ip` (line 281). -/
def target_ip_cell (m : DF) : Nat → Value :=
  colOr m "Destination IP Address" (colOr m "target_ip" (fun _ => vStr "0.0.0.0"))

/-- Standardized `mitigation_method` (line 284). -/
def mitigation_cell (m : DF) : Nat → Value :=
  colOr m "Defense Mechanism Used"
    (colOr m "Defense Mechanism"
      (colOr m "mitigation_method"
        (colOr m "Attack Signature" (fun _ => vStr "Standard Protocol"))))

/-- Standardized `attack_duration_min` (line 285). -/
def duration_cell (m : DF) : Nat → Value :=
  fun i => vNum ((toNum ((colOr m "attack_duration_min"
    (colOr m "Duration (min)" (fun _ => vNum 30))) i)).getD 30)

/-- Standardized `response_time_min` (line 286). -/
def response_cell (m : DF) : Nat → Value :=
  fun i => vNum ((toNum ((colOr m "response_time_min"
    (colOr m "Response Time (min)" (fun _ => vNum 15))) i)).getD 15)

/-- Standardized `security_tools_used` (line 289). -/
def tools_cell (m : DF) : Nat → Value :=
  colOr m "Defense Mechanism Used"
    (colOr m "security_tools_used" (fun _ => vStr "Basic Security Suite"))

/-- Standardized `user_role` (line 290). -/
def user_role_cell (m : DF) : Nat → Value :=
  colOr m "user_role" (fun _ => vStr "User")

/-- The canonical v2 field list, in the order the standardized frame is
built (lines 185-290). -/
def canonical_fields : List String :=
  ["timestamp", "attack_type", "target_system", "location", "industry",
   "attack_severity", "data_compromised_GB", "outcome", "attacker_ip",
   "target_ip", "mitigation_method", "attack_duration_min",
   "response_time_min", "security_tools_used", "user_role"]

/-- `standardized[c] = standardized[c].astype(str)` (lines 293-295). -/
def astype_str_col (df : DF) (c : String) : DF :=
  setCol df c (fun i => vStr (pyStr (getCell df c i)))

/-- `map_global_schema` (lines 43-297): phase A fills `mapped`, phase B
projects it onto the fifteen canonical lowercase fields, then the three
string coercions are applied. -/
def map_global_schema (o : Oracle) (now : Int) (df : DF) : DF :=
  let m := map_phaseA o now df
  let s : DF := ⟨df.nrows,
    [("timestamp", timestamp_cell now m),
     ("attack_type", attack_type_cell m),
     ("target_system", target_system_cell m),
     ("location", location_cell m),
     ("industry", industry_cell m),
     ("attack_severity", severity_cell m),
     ("data_compromised_GB", data_gb_cell m),
     ("outcome", outcome_cell m),
     ("attacker_ip", attacker_ip_cell m),
     ("target_ip", target_ip_cell m),
     ("mitigation_method", mitigation_cell m),
     ("attack_duration_min", duration_cell m),
     ("response_time_min", response_cell m),
     ("security_tools_used", tools_cell m),
     ("user_role", user_role_cell m)]⟩
  astype_str_col (astype_str_col (astype_str_col s "attack_type") "target_system") "location"

/-- The minimal adjustment of the already-canonical branch (line 325):
coerce `Timestamp` to datetime, filling NaT with the current instant. -/
def coerce_timestamp (now : Int) (df : DF) : DF :=
  setCol df "Timestamp" (fun i => vTime ((toTime (getCell df "Timestamp" i)).getD now))

/-- `load_best_dataset` (lines 300-331) given the already-loaded table:
the three schema-detection branches, in source order.  File discovery
(`find_dataset`) and the Streamlit reporting are outside the model. -/
def load_best_dataset (o : Oracle) (now : Int) (df : DF) : DF :=
  if hasCol df "Country" && hasCol df "Financial Loss (in Million $)" then
    map_global_schema o now df
  else if hasCol df "Timestamp" && hasCol df "Attack Type" then
    coerce_timestamp now df
  else
    map_global_schema o now df

end Adapter

/-! ### Synthetic generator: `generate_expanded_data.py` -/

namespace Gen

/-- `MAJOR_COUNTRIES` (lines 16-22): weight per major country. -/
def MAJOR_COUNTRIES : List (String × ℚ) :=
  [("USA", 3.5), ("China", 3.5), ("Russia", 3), ("UK", 2.5), ("Germany", 2.5),
   ("France", 2.5), ("India", 2.5), ("Japan", 2), ("South Korea", 2),
   ("Brazil", 2), ("Canada", 2), ("Australia", 2), ("Italy", 2),
   ("Spain", 2), ("Netherlands", 2), ("Poland", 1.5), ("Sweden", 1.5),
   ("Belgium", 1.5), ("Switzerland", 1.5), ("Israel", 1.5), ("Turkey", 1.5)]

/-- `COUNTRIES` (lines 30-38). -/
def COUNTRIES : List String :=
  ["USA", "UK", "Germany", "France", "China", "India", "Brazil", "Russia",
   "Australia", "Canada", "Japan", "South Korea", "Mexico", "Italy", "Spain",
   "Netherlands", "Singapore", "UAE", "Saudi Arabia", "Turkey", "Poland",
   "Sweden", "Norway", "Denmark", "Finland", "Belgium", "Switzerland",
   "Argentina", "Chile", "Colombia", "Peru", "Indonesia", "Thailand",
   "Vietnam", "Philippines", "Malaysia", "Pakistan", "Bangladesh", "Egypt",
   "Nigeria", "South Africa", "Kenya", "Morocco", "Israel", "New Zealand"]

/-- `ATTACK_TYPES` (lines 40-47). -/
def ATTACK_TYPES : List String :=
  ["Malware", "Ransomware", "Phishing", "DDoS", "SQL Injection",
   "Man-in-the-Middle", "Zero-Day Exploit", "Brute Force",
   "Cross-Site Scripting", "Password Attack", "DNS Spoofing",
   "Session Hijacking", "Trojan", "Spyware", "Backdoor",
   "APT", "Cryptojacking", "IoT Attack", "Supply Chain Attack",
   "Business Email Compromise", "Credential Stuffing", "Rootkit", "Worm"]

/-- `TARGET_INDUSTRIES` (lines 49-54). -/
def TARGET_INDUSTRIES : List String :=
  ["Finance", "Healthcare", "Government", "Retail", "Education",
   "Technology", "Manufacturing", "Energy", "Telecommunications",
   "Transportation", "Media", "Legal", "Insurance", "Real Estate",
   "Hospitality", "Agriculture", "Defense", "Aerospace"]

/-- `TARGET_SYSTEMS` (lines 56-61). -/
def TARGET_SYSTEMS : List String :=
  ["Web Server", "Database", "Email Server", "File Server",
   "Application Server", "Cloud Storage", "Network Router",
   "Firewall", "VPN Gateway", "DNS Server", "Active Directory",
   "IoT Device", "Mobile App", "Desktop Application", "API Gateway"]

/-- `ATTACK_SOURCES` (lines 63-67). -/
def ATTACK_SOURCES : List String :=
  ["Hacker Group", "Nation State", "Insider Threat", "Cybercriminal",
   "Hacktivist", "Bot Network", "Script Kiddie", "APT Group",
   "Organized Crime", "Competitor", "Disgruntled Employee"]

/-- `SECURITY_VULNERABILITIES` (lines 69-75). -/
def SECURITY_VULNERABILITIES : List String :=
  ["Unpatched Software", "Weak Password", "Misconfiguration",
   "Social Engineering", "Zero-Day", "SQL Injection", "XSS",
   "Default Credentials", "Missing Encryption", "Open Port",
   "Outdated Protocol", "Poor Access Control", "No MFA",
   "Unsecured API", "Legacy System"]

/-- `DEFENSE_MECHANISMS` (lines 77-82). -/
def DEFENSE_MECHANISMS : List String :=
  ["Firewall", "IDS/IPS", "Antivirus", "WAF", "DLP", "SIEM",
   "Endpoint Protection", "Network Segmentation", "MFA",
   "Encryption", "Patch Management", "Access Control",
   "Security Monitoring", "Threat Intelligence", "VPN"]

/-- `ACTION_TAKEN` (lines 84-88). -/
def ACTION_TAKEN : List String :=
  ["Blocked", "Quarantined", "Logged", "Alerted", "Isolated",
   "Patched", "Investigated", "Remediated", "Escalated",
   "Monitored", "Contained", "Restored"]

/-- `severity_weights` (lines 115-134): per-attack-type severity range. -/
def severity_weights : List (String × (Nat × Nat)) :=
  [("Ransomware", (7, 10)), ("Zero-Day Exploit", (8, 10)), ("APT", (8, 10)),
   ("Supply Chain Attack", (7, 10)), ("Rootkit", (7, 9)),
   ("SQL Injection", (6, 9)), ("Malware", (5, 9)), ("Worm", (5, 8)),
   ("Backdoor", (6, 9)), ("DDoS", (4, 8)), ("Trojan", (5, 8)),
   ("IoT Attack", (4, 7)), ("Cryptojacking", (3, 6)), ("Phishing", (3, 7)),
   ("Business Email Compromise", (5, 8)), ("Credential Stuffing", (4, 7)),
   ("Brute Force", (3, 6)), ("Spyware", (4, 7))]

/-- `industry_user_multiplier` (lines 143-150). -/
def industry_user_multiplier : List (String × Nat) :=
  [("Finance", 10), ("Healthcare", 8), ("Government", 15), ("Retail", 20),
   ("Education", 12), ("Technology", 5)]

/-- One `random.random()` draw, in `[0,1)`, read off the raw stream.  The
Mersenne-Twister output is abstracted as an arbitrary stream value reduced
to a rational in the unit interval. -/
def rngFloat (g : Nat → Nat) (k : Nat) : ℚ := (g k % 1000000 : ℚ) / 1000000

/-- `random.randint(a, b)` (both endpoints included). -/
def randint (a b : Nat) (g : Nat → Nat) (k : Nat) : Nat := a + g k % (b + 1 - a)

/-- `random.uniform(a, b)`. -/
def uniform (a b : ℚ) (g : Nat → Nat) (k : Nat) : ℚ := a + (b - a) * rngFloat g k

/-- `random.choice(l)`. -/
def choice (l : List String) (g : Nat → Nat) (k : Nat) : String :=
  l.getD (g k % l.length) ""

/-- Walk a cumulative-weight list, as `random.choices(weights=...)` does. -/
def cum_pick : List (String × ℚ) → ℚ → String
  | [], _ => ""
  | (s, w) :: rest, r => if r < w then s else cum_pick rest (r - w)

/-- `random.choices(items, weights=ws, k=1)[0]`: a single weighted draw
driven by one uniform `[0,1)` stream value. -/
def choices_weighted (items : List String) (ws : List ℚ) (r01 : ℚ) : String :=
  cum_pick (items.zip ws) (r01 * (ws.foldl (fun a b => a + b) 0))

/-- Python `round(x, 2)`.  (Python rounds ties to even; the difference on
the measure-zero tie set affects no claim.) -/
def round2 (q : ℚ) : ℚ := (round (q * 100) : ℚ) / 100

/-- `START_DATE = datetime(2019, 1, 1)`, `END_DATE = datetime(2024, 12, 31)`:
`(END_DATE - START_DATE).days = 2191`.  Instants are represented as second
offsets from `START_DATE`. -/
def total_seconds : Nat := 2191 * 86400

/-- `generate_timestamp` (lines 90-96): a random offset of seconds drawn —
like every other draw — from the one process-wide `random` stream `g`. -/
def generate_timestamp (g : Nat → Nat) (k : Nat) : Nat :=
  randint 0 total_seconds g k

/-- `timestamp.year` for an offset from `START_DATE` within the generated
range (2019 has 365 days, 2020 is a leap year, ...). -/
def year_of_offset (t : Nat) : Nat :=
  let d := t / 86400
  if d < 365 then 2019
  else if d < 731 then 2020
  else if d < 1096 then 2021
  else if d < 1461 then 2022
  else if d < 1826 then 2023
  else 2024

/-
`generate_attack_record` (lines 98-227) consumes twenty draws from the
stream, at offsets `p`..`p+19`, in the order the source makes its `random`
calls:
  p+0  random.random()            (country branch test, line 103)
  p+1  country draw               (lines 104-107)
  p+2  year = randint(2019,2024)  (line 109; never used in the record)
  p+3  attack_type choice
  p+4  target_industry choice
  p+5  target_system choice
  p+6  attack_severity randint
  p+7  base_loss uniform(1000,50000)
  p+8  financial-loss jitter uniform(0.5,2.0)
  p+9  affected randint(10,500)
  p+10 affected jitter uniform(0.5,1.5)
  p+11 attack_source choice
  p+12 vulnerability choice
  p+13 defense choice
  p+14 action choice
  p+15 base_resolution uniform(2,72)
  p+16 resolution multiplier uniform (severity-banded)
  p+17 data_loss uniform (attack-type-banded)
  p+18 attack_duration uniform (attack-type-banded)
  p+19 timestamp randint (generate_timestamp)
-/

/-- The weighted/uniform country draw (lines 103-107). -/
def country_draw (g : Nat → Nat) (p : Nat) : String :=
  if rngFloat g p < 7/10 then
    choices_weighted COUNTRIES
      (COUNTRIES.map (fun c => ((MAJOR_COUNTRIES.lookup c).getD (1/2))))
      (rngFloat g (p+1))
  else choice COUNTRIES g (p+1)

/-- The attack-type draw (line 110). -/
def attack_type_draw (g : Nat → Nat) (p : Nat) : String :=
  choice ATTACK_TYPES g (p+3)

/-- `severity_range = severity_weights.get(attack_type, (3, 8))` (line 135). -/
def severity_range (g : Nat → Nat) (p : Nat) : Nat × Nat :=
  (severity_weights.lookup (attack_type_draw g p)).getD (3, 8)

/-- `attack_severity = random.randint(*severity_range)` (line 136). -/
def attack_severity_draw (g : Nat → Nat) (p : Nat) : Nat :=
  randint (severity_range g p).1 (severity_range g p).2 g (p+6)

/-- The attack-source draw (line 155). -/
def attack_source_draw (g : Nat → Nat) (p : Nat) : String :=
  choice ATTACK_SOURCES g (p+11)

/-- The action draw (line 164). -/
def action_draw (g : Nat → Nat) (p : Nat) : String :=
  choice ACTION_TAKEN g (p+14)

/-- Resolution time in hours (lines 168-174): inversely banded by severity. -/
def resolution_time (g : Nat → Nat) (p : Nat) : ℚ :=
  let sev := attack_severity_draw g p
  let base := uniform 2 72 g (p+15)
  if sev ≥ 8 then base * uniform 0.3 0.7 g (p+16)
  else if sev ≥ 5 then base * uniform 0.6 1.2 g (p+16)
  else base * uniform 1.0 1.8 g (p+16)

/-- Data compromised in GB (lines 177-186): banded by attack type. -/
def data_loss_draw (g : Nat → Nat) (p : Nat) : ℚ :=
  let at_ := attack_type_draw g p
  let sev : ℚ := attack_severity_draw g p
  if ["Ransomware", "SQL Injection", "Supply Chain Attack", "APT"].contains at_ then
    uniform 1 100 g (p+17) * (sev / 3)
  else if ["Business Email Compromise", "Credential Stuffing"].contains at_ then
    uniform 0.5 20 g (p+17) * (sev / 4)
  else if ["DDoS", "Brute Force", "Cryptojacking"].contains at_ then
    uniform 0.1 5 g (p+17)
  else if ["Backdoor", "Rootkit", "Trojan", "Spyware"].contains at_ then
    uniform 5 80 g (p+17) * (sev / 4)
  else
    uniform 0.5 50 g (p+17) * (sev / 5)

/-- Attack duration in minutes (lines 189-198): banded by attack type. -/
def attack_duration_draw (g : Nat → Nat) (p : Nat) : ℚ :=
  let at_ := attack_type_draw g p
  if ["DDoS", "Ransomware", "Worm"].contains at_ then uniform 30 180 g (p+18)
  else if ["APT", "Supply Chain Attack", "Rootkit"].contains at_ then uniform 60 240 g (p+18)
  else if ["Cryptojacking", "IoT Attack"].contains at_ then uniform 120 300 g (p+18)
  else if ["Phishing", "Business Email Compromise"].contains at_ then uniform 5 30 g (p+18)
  else uniform 10 90 g (p+18)

/-- Outcome from the drawn action (lines 201-206). -/
def outcome_draw (g : Nat → Nat) (p : Nat) : String :=
  let action := action_draw g p
  if ["Blocked", "Quarantined", "Contained"].contains action then "Mitigated"
  else if ["Logged", "Monitored"].contains action then "Detected"
  else "Resolved"

/-- One generated incident (the dict of lines 210-227). -/
structure Record where
  timestamp : Nat
  year : Nat
  location : String
  attack_type : String
  target_industry : String
  target_system : String
  attack_severity : Nat
  attack_duration_min : ℚ
  data_compromised_GB : ℚ
  financial_impact_USD : ℚ
  response_time_min : ℚ
  mitigation_method : String
  outcome : String
  attack_vector : String
  attacker_origin : String
  affected_users : Nat
deriving DecidableEq

/-- `generate_attack_record` (lines 98-227). -/
def generate_attack_record (g : Nat → Nat) (p : Nat) : Record :=
  let ts := generate_timestamp g (p+19)
  let base_loss := uniform 1000 50000 g (p+7)
  let sevq : ℚ := attack_severity_draw g p
  let multiplier : Nat :=
    (industry_user_multiplier.lookup (choice TARGET_INDUSTRIES g (p+4))).getD 7
  { timestamp := ts
    year := year_of_offset ts
    location := country_draw g p
    attack_type := attack_type_draw g p
    target_industry := choice TARGET_INDUSTRIES g (p+4)
    target_system := choice TARGET_SYSTEMS g (p+5)
    attack_severity := attack_severity_draw g p
    attack_duration_min := round2 (attack_duration_draw g p)
    data_compromised_GB := round2 (data_loss_draw g p)
    financial_impact_USD := round2 (base_loss * (sevq / 5) * uniform 0.5 2.0 g (p+8))
    response_time_min := round2 (resolution_time g p * 60)
    mitigation_method := choice DEFENSE_MECHANISMS g (p+13)
    outcome := outcome_draw g p
    attack_vector := choice SECURITY_VULNERABILITIES g (p+12)
    -- line 225: 'External' if 'Insider' not in attack_source else 'Internal'
    attacker_origin :=
      if strContains (attack_source_draw g p) "Insider" then "Internal" else "External"
    affected_users :=
      (⌊(randint 10 500 g (p+9) * multiplier : ℚ) * uniform 0.5 1.5 g (p+10)⌋).toNat }

/-- `generate_dataset` (lines 229-250): `num_records` records off the single
stream, sorted ascending by timestamp. -/
def generate_dataset (g : Nat → Nat) (n : Nat) : List Record :=
  ((List.range n).map (fun i => generate_attack_record g (20 * i))).mergeSort
    (fun a b => a.timestamp ≤ b.timestamp)

end Gen

/-! ### Column-tracking kit for the normalizer -/

namespace Adapter

@[simp] theorem hasCol_step_geo (df : DF) (n : String) :
    hasCol (step_geo df) n =
      (((hasCol df "Country" && !hasCol df "Latitude") &&
        (n == "Latitude" || n == "Longitude")) || hasCol df n) := by
  unfold step_geo
  split
  · next h =>
    simp only [hasCol_setCol, h, Bool.true_and]
    cases hn1 : (n == "Latitude") <;> cases hn2 : (n == "Longitude") <;> simp
  · next h =>
    have hc : (hasCol df "Country" && !hasCol df "Latitude") = false := by
      cases hcv : (hasCol df "Country" && !hasCol df "Latitude")
      · rfl
      · exact absurd hcv h
    simp [hc]

@[simp] theorem getCol_step_geo (df : DF) (n : String)
    (h1 : ¬ n = "Latitude") (h2 : ¬ n = "Longitude") :
    getCol (step_geo df) n = getCol df n := by
  unfold step_geo
  split <;> simp [h1, h2]

@[simp] theorem nrows_step_geo (df : DF) : (step_geo df).nrows = df.nrows := by
  unfold step_geo; split <;> rfl

theorem hasCol_foldl_ensure (l : List String) (df : DF) (n : String) :
    hasCol (l.foldl (fun d c => ensureCol d c (fun _ => vNull)) df) n =
      (l.contains n || hasCol df n) := by
  induction l generalizing df with
  | nil => simp
  | cons c rest ih =>
    simp only [List.foldl_cons, ih, List.contains_cons, hasCol_ensureCol]
    cases hc : (c == n) <;> cases hn : (n == c) <;> simp_all [BEq.comm]

theorem getCol_foldl_ensure_of_has (l : List String) (df : DF) (n : String)
    (h : hasCol df n = true) :
    getCol (l.foldl (fun d c => ensureCol d c (fun _ => vNull)) df) n =
      getCol df n := by
  induction l generalizing df with
  | nil => rfl
  | cons c rest ih =>
    simp only [List.foldl_cons]
    rw [ih _ (by simp [h]), getCol_ensureCol]
    by_cases hn : n = c
    · subst hn
      obtain ⟨g, hg⟩ := getCol_isSome_of_hasCol h
      simp [hg]
    · simp [hn]

theorem getCol_foldl_ensure_of_not_mem (l : List String) (df : DF) (n : String)
    (h : l.contains n = false) :
    getCol (l.foldl (fun d c => ensureCol d c (fun _ => vNull)) df) n =
      getCol df n := by
  induction l generalizing df with
  | nil => rfl
  | cons c rest ih =>
    simp only [List.contains_cons, Bool.or_eq_false_iff] at h
    simp only [List.foldl_cons]
    rw [ih _ h.2, getCol_ensureCol]
    have : ¬ n = c := by
      intro he; subst he; simp at h
    simp [this]

@[simp] theorem hasCol_fill_canonical (df : DF) (n : String) :
    hasCol (fill_canonical df) n = (CANONICAL_COLUMNS.contains n || hasCol df n) :=
  hasCol_foldl_ensure CANONICAL_COLUMNS df n

theorem getCol_fill_canonical_of_has (df : DF) (n : String)
    (h : hasCol df n = true) : getCol (fill_canonical df) n = getCol df n :=
  getCol_foldl_ensure_of_has CANONICAL_COLUMNS df n h

theorem getCol_fill_canonical_of_not_mem (df : DF) (n : String)
    (h : CANONICAL_COLUMNS.contains n = false) :
    getCol (fill_canonical df) n = getCol df n :=
  getCol_foldl_ensure_of_not_mem CANONICAL_COLUMNS df n h

@[simp] theorem nrows_fill_canonical (df : DF) :
    (fill_canonical df).nrows = df.nrows := by
  unfold fill_canonical
  generalize CANONICAL_COLUMNS = l
  induction l generalizing df with
  | nil => rfl
  | cons c rest ih => simp [List.foldl_cons, ih]

end Adapter

@[simp] theorem getCol_mk_nil (n : Nat) (x : String) :
    getCol ⟨n, []⟩ x = none := rfl

@[simp] theorem getCol_mk_cons (n : Nat) (c : String) (f : Nat → Value)
    (rest : List (String × (Nat → Value))) (x : String) :
    getCol ⟨n, (c, f) :: rest⟩ x =
      if x = c then some f else getCol ⟨n, rest⟩ x := by
  unfold getCol
  by_cases h : c = x
  · subst h; simp [List.find?]
  · have hx : ¬ x = c := fun hh => h hh.symm
    simp [List.find?, show (c == x) = false from by simp [h], hx]

@[simp] theorem hasCol_mk_nil (n : Nat) (x : String) :
    hasCol ⟨n, []⟩ x = false := rfl

@[simp] theorem hasCol_mk_cons (n : Nat) (c : String) (f : Nat → Value)
    (rest : List (String × (Nat → Value))) (x : String) :
    hasCol ⟨n, (c, f) :: rest⟩ x = ((c == x) || hasCol ⟨n, rest⟩ x) := by
  simp [hasCol]

namespace Adapter

/-- An input table with no missing cells: every stored column is non-null at
every index. -/
def NullFree (df : DF) : Prop :=
  ∀ c f, getCol df c = some f → ∀ i, f i ≠ vNull

theorem NullFree_setCol {df : DF} {c : String} {f : Nat → Value}
    (h : NullFree df) (hf : ∀ i, f i ≠ vNull) : NullFree (setCol df c f) := by
  intro n g hg i
  rw [getCol_setCol] at hg
  by_cases hn : n = c
  · rw [if_pos hn] at hg
    cases hg
    exact hf i
  · rw [if_neg hn] at hg
    exact h n g hg i

theorem NullFree_ensureCol {df : DF} {c : String} {f : Nat → Value}
    (h : NullFree df) (hf : ∀ i, f i ≠ vNull) : NullFree (ensureCol df c f) := by
  unfold ensureCol
  split
  · exact h
  · exact NullFree_setCol h hf

theorem NullFree_step_geo {df : DF} (h : NullFree df) : NullFree (step_geo df) := by
  unfold step_geo
  split
  · exact NullFree_setCol (NullFree_setCol h (fun i => by simp)) (fun i => by simp)
  · exact h

theorem colOr_nonnull {df : DF} (h : NullFree df) (c : String) {fb : Nat → Value}
    (hfb : ∀ i, fb i ≠ vNull) : ∀ i, colOr df c fb i ≠ vNull := by
  intro i
  unfold colOr
  rcases hg : getCol df c with _ | g
  · simpa using hfb i
  · simpa using h c g hg i

theorem colOr_nonnull_of_has {df : DF} (h : NullFree df) {c : String}
    (hc : hasCol df c = true) (fb : Nat → Value) : ∀ i, colOr df c fb i ≠ vNull := by
  intro i
  unfold colOr
  obtain ⟨g, hg⟩ := getCol_isSome_of_hasCol hc
  rw [hg]
  simpa using h c g hg i

theorem fill_foldl_eq_self (l : List String) (df : DF)
    (h : ∀ c ∈ l, hasCol df c = true) :
    l.foldl (fun d c => ensureCol d c (fun _ => vNull)) df = df := by
  induction l with
  | nil => rfl
  | cons c rest ih =>
    have hc : ensureCol df c (fun _ => vNull) = df := by
      unfold ensureCol; rw [h c (by simp)]; simp
    simp only [List.foldl_cons, hc]
    exact ih (fun x hx => h x (by simp [hx]))

/-- After the pre-phase every canonical (capitalized) column is present, so
the placeholder loop of lines 171-173 changes nothing. -/
theorem hasCol_phaseA_pre_canonical (o : Oracle) (now : Int) (df : DF) :
    ∀ c ∈ CANONICAL_COLUMNS, hasCol (map_phaseA_pre o now df) c = true := by
  intro c hc
  fin_cases hc <;> simp [map_phaseA_pre]

theorem map_phaseA_eq_pre (o : Oracle) (now : Int) (df : DF) :
    map_phaseA o now df = map_phaseA_pre o now df := by
  unfold map_phaseA fill_canonical
  exact fill_foldl_eq_self _ _ (hasCol_phaseA_pre_canonical o now df)

theorem NullFree_phaseA_pre (o : Oracle) (now : Int) (df : DF)
    (h : NullFree df) : NullFree (map_phaseA_pre o now df) := by
  unfold map_phaseA_pre
  refine NullFree_setCol (NullFree_step_geo ?_) (fun i => by simp)
  -- Severity Level: every branch synthesizes a string label
  refine NullFree_ensureCol ?_
    (fun i => by simp only [ite_apply]; split_ifs <;> simp)
  refine NullFree_ensureCol ?_ (fun i => by simp)
  refine NullFree_ensureCol ?_ (fun i => by simp)
  refine NullFree_ensureCol ?_ (fun i => by simp)
  refine NullFree_ensureCol ?_ (fun i => by simp)
  refine NullFree_ensureCol ?_ (fun i => by simp)
  -- Action Taken: either copied from an input outcome column or synthesized
  refine NullFree_ensureCol ?_ (fun i => ?_)
  rotate_left
  · simp only [ite_apply, hasCol_ensureCol, String.reduceBEq, Bool.false_or,
      colOr, getCol_ensureCol, String.reduceEq, reduceIte]
    split
    · next hc =>
      obtain ⟨g, hg⟩ := getCol_isSome_of_hasCol hc
      rw [hg]
      simpa using h _ g hg i
    · simp
  refine NullFree_ensureCol ?_ (fun i => by simp)
  refine NullFree_ensureCol ?_ (fun i => by simp)
  refine NullFree_ensureCol ?_ (fun i => by simp)
  refine NullFree_ensureCol ?_ (fun i => by simp)
  refine NullFree_ensureCol ?_ (fun i => by simp)
  refine NullFree_ensureCol ?_ (fun i => by simp)
  refine NullFree_ensureCol ?_ (fun i => by simp)
  -- Attack Type: either copied from an input attack_type column or synthesized
  refine NullFree_ensureCol ?_ (fun i => ?_)
  rotate_left
  · simp only [ite_apply, hasCol_ensureCol, String.reduceBEq, Bool.false_or,
      colOr, getCol_ensureCol, String.reduceEq, reduceIte]
    split
    · next hc =>
      obtain ⟨g, hg⟩ := getCol_isSome_of_hasCol hc
      rw [hg]
      simpa using h _ g hg i
    · simp
  refine NullFree_ensureCol ?_ (fun i => by simp)
  refine NullFree_ensureCol h
    (fun i => by simp only [ite_apply]; split_ifs <;> simp)

theorem NullFree_phaseA (o : Oracle) (now : Int) (df : DF)
    (h : NullFree df) : NullFree (map_phaseA o now df) := by
  rw [map_phaseA_eq_pre]
  exact NullFree_phaseA_pre o now df h

end Adapter

namespace Adapter

theorem sev_hasCol_phaseA (o : Oracle) (now : Int) (df : DF) :
    hasCol (map_phaseA o now df) "attack_severity" = hasCol df "attack_severity" := by
  simp [map_phaseA, map_phaseA_pre, CANONICAL_COLUMNS]

theorem sevLevel_hasCol_phaseA (o : Oracle) (now : Int) (df : DF) :
    hasCol (map_phaseA o now df) "Severity Level" = true := by
  simp [map_phaseA, map_phaseA_pre, CANONICAL_COLUMNS]

theorem actionTaken_hasCol_phaseA (o : Oracle) (now : Int) (df : DF) :
    hasCol (map_phaseA o now df) "Action Taken" = true := by
  simp [map_phaseA, map_phaseA_pre, CANONICAL_COLUMNS]

theorem srcIp_hasCol_phaseA (o : Oracle) (now : Int) (df : DF) :
    hasCol (map_phaseA o now df) "Source IP Address" = true := by
  simp [map_phaseA, map_phaseA_pre, CANONICAL_COLUMNS]

theorem dstIp_hasCol_phaseA (o : Oracle) (now : Int) (df : DF) :
    hasCol (map_phaseA o now df) "Destination IP Address" = true := by
  simp [map_phaseA, map_phaseA_pre, CANONICAL_COLUMNS]

theorem signature_hasCol_phaseA (o : Oracle) (now : Int) (df : DF) :
    hasCol (map_phaseA o now df) "Attack Signature" = true := by
  simp [map_phaseA, map_phaseA_pre, CANONICAL_COLUMNS]

theorem mgs_cell_timestamp (o : Oracle) (now : Int) (df : DF) (i : Nat) :
    getCell (map_global_schema o now df) "timestamp" i =
      timestamp_cell now (map_phaseA o now df) i := by
  simp [map_global_schema, astype_str_col, getCell]

theorem mgs_cell_attack_type (o : Oracle) (now : Int) (df : DF) (i : Nat) :
    getCell (map_global_schema o now df) "attack_type" i =
      vStr (pyStr (attack_type_cell (map_phaseA o now df) i)) := by
  simp [map_global_schema, astype_str_col, getCell]

theorem mgs_cell_target_system (o : Oracle) (now : Int) (df : DF) (i : Nat) :
    getCell (map_global_schema o now df) "target_system" i =
      vStr (pyStr (target_system_cell (map_phaseA o now df) i)) := by
  simp [map_global_schema, astype_str_col, getCell]

theorem mgs_cell_location (o : Oracle) (now : Int) (df : DF) (i : Nat) :
    getCell (map_global_schema o now df) "location" i =
      vStr (pyStr (location_cell (map_phaseA o now df) i)) := by
  simp [map_global_schema, astype_str_col, getCell]

theorem mgs_cell_industry (o : Oracle) (now : Int) (df : DF) (i : Nat) :
    getCell (map_global_schema o now df) "industry" i =
      industry_cell (map_phaseA o now df) i := by
  simp [map_global_schema, astype_str_col, getCell]

theorem mgs_cell_severity (o : Oracle) (now : Int) (df : DF) (i : Nat) :
    getCell (map_global_schema o now df) "attack_severity" i =
      severity_cell (map_phaseA o now df) i := by
  simp [map_global_schema, astype_str_col, getCell]

theorem mgs_cell_data_gb (o : Oracle) (now : Int) (df : DF) (i : Nat) :
    getCell (map_global_schema o now df) "data_compromised_GB" i =
      data_gb_cell (map_phaseA o now df) i := by
  simp [map_global_schema, astype_str_col, getCell]

theorem mgs_cell_outcome (o : Oracle) (now : Int) (df : DF) (i : Nat) :
    getCell (map_global_schema o now df) "outcome" i =
      outcome_cell (map_phaseA o now df) i := by
  simp [map_global_schema, astype_str_col, getCell]

theorem mgs_cell_attacker_ip (o : Oracle) (now : Int) (df : DF) (i : Nat) :
    getCell (map_global_schema o now df) "attacker_ip" i =
      attacker_ip_cell (map_phaseA o now df) i := by
  simp [map_global_schema, astype_str_col, getCell]

theorem mgs_cell_target_ip (o : Oracle) (now : Int) (df : DF) (i : Nat) :
    getCell (map_global_schema o now df) "target_ip" i =
      target_ip_cell (map_phaseA o now df) i := by
  simp [map_global_schema, astype_str_col, getCell]

theorem mgs_cell_mitigation (o : Oracle) (now : Int) (df : DF) (i : Nat) :
    getCell (map_global_schema o now df) "mitigation_method" i =
      mitigation_cell (map_phaseA o now df) i := by
  simp [map_global_schema, astype_str_col, getCell]

theorem mgs_cell_duration (o : Oracle) (now : Int) (df : DF) (i : Nat) :
    getCell (map_global_schema o now df) "attack_duration_min" i =
      duration_cell (map_phaseA o now df) i := by
  simp [map_global_schema, astype_str_col, getCell]

theorem mgs_cell_response (o : Oracle) (now : Int) (df : DF) (i : Nat) :
    getCell (map_global_schema o now df) "response_time_min" i =
      response_cell (map_phaseA o now df) i := by
  simp [map_global_schema, astype_str_col, getCell]

theorem mgs_cell_tools (o : Oracle) (now : Int) (df : DF) (i : Nat) :
    getCell (map_global_schema o now df) "security_tools_used" i =
      tools_cell (map_phaseA o now df) i := by
  simp [map_global_schema, astype_str_col, getCell]

theorem mgs_cell_user_role (o : Oracle) (now : Int) (df : DF) (i : Nat) :
    getCell (map_global_schema o now df) "user_role" i =
      user_role_cell (map_phaseA o now df) i := by
  simp [map_global_schema, astype_str_col, getCell]

theorem mgs_hasCol_canonical (o : Oracle) (now : Int) (df : DF) :
    ∀ name ∈ canonical_fields, hasCol (map_global_schema o now df) name = true := by
  intro name hname
  fin_cases hname <;> simp [map_global_schema, astype_str_col]

theorem mgs_cols (o : Oracle) (now : Int) (df : DF) :
    (map_global_schema o now df).cols.map Prod.fst = canonical_fields := by
  simp [map_global_schema, astype_str_col, setCol, setColList, canonical_fields]

theorem mgs_nrows (o : Oracle) (now : Int) (df : DF) :
    (map_global_schema o now df).nrows = df.nrows := by
  simp [map_global_schema, astype_str_col]

/-- The oracle used for concrete instances: every pick is the first
vocabulary element and both synthesized addresses are fixed strings. -/
def oracle0 : Oracle :=
  ⟨fun _ => 0, fun _ => 0, fun _ => 0, fun _ => 0, fun _ => 0, fun _ => 0,
   fun _ => "10.0.0.1", fun _ => "10.0.0.2", fun _ => 0, fun _ => 0,
   fun _ => 0, fun _ => 0, fun _ => 0, fun _ => 0, fun _ => 0, fun _ => 0⟩

/-- A one-row table holding only a financial-loss column. -/
def dfLoss (q : ℚ) : DF := ⟨1, [("Financial Loss (in Million $)", fun _ => vNum q)]⟩

/-- A one-row table holding only a categorical severity label. -/
def dfSev (s : String) : DF := ⟨1, [("Severity Level", fun _ => vStr s)]⟩

/-- A one-row table supplying its own numeric `attack_severity`. -/
def dfSevNum (q : ℚ) : DF := ⟨1, [("attack_severity", fun _ => vNum q)]⟩

/-- A one-row table that triggers the already-canonical branch of
`load_best_dataset` (`Timestamp` and `Attack Type` present). -/
def dfCanonLike : DF :=
  ⟨1, [("Timestamp", fun _ => vTime 77), ("Attack Type", fun _ => vStr "DDoS")]⟩

/-- A table already in the canonical lowercase shape, with every field
present and of its declared type. -/
def canonicalDF (n : Nat) (fts : Nat → Int)
    (fat ftg flo fin fout faip ftip fmit fsec fusr : Nat → String)
    (fsev fgb fdur frsp : Nat → ℚ) : DF :=
  ⟨n, [("timestamp", fun i => vTime (fts i)),
       ("attack_type", fun i => vStr (fat i)),
       ("target_system", fun i => vStr (ftg i)),
       ("location", fun i => vStr (flo i)),
       ("industry", fun i => vStr (fin i)),
       ("attack_severity", fun i => vNum (fsev i)),
       ("data_compromised_GB", fun i => vNum (fgb i)),
       ("attack_duration_min", fun i => vNum (fdur i)),
       ("response_time_min", fun i => vNum (frsp i)),
       ("outcome", fun i => vStr (fout i)),
       ("attacker_ip", fun i => vStr (faip i)),
       ("target_ip", fun i => vStr (ftip i)),
       ("mitigation_method", fun i => vStr (fmit i)),
       ("security_tools_used", fun i => vStr (fsec i)),
       ("user_role", fun i => vStr (fusr i))]⟩

/-- A concrete instance of the already-canonical table. -/
def canonicalDF1 : DF :=
  canonicalDF 1 (fun _ => 1000) (fun _ => "Phishing") (fun _ => "Database")
    (fun _ => "UK") (fun _ => "Finance") (fun _ => "Mitigated")
    (fun _ => "9.9.9.9") (fun _ => "8.8.8.8") (fun _ => "WAF")
    (fun _ => "SIEM") (fun _ => "Admin")
    (fun _ => 6) (fun _ => 3) (fun _ => 12) (fun _ => 9)

end Adapter

/-! ### Claims -/

open Adapter Gen

set_option maxRecDepth 10000 in
/-- C1, counterexample: with only a financial-loss column, loss 5 normalizes
to `attack_severity` 2, not 3 as claimed: the adapter first synthesizes the
label `Low` from the loss (line 142) and then maps the label through
`sev_to_num`, which sends `low` to 2 (line 235); the `loss_to_sev` branch of
line 240 is unreachable for such input. -/
theorem c1_counterexample :
    ¬ (getCell (map_global_schema oracle0 0 (dfLoss 5)) "attack_severity" 0 = vNum 3) := by
  decide

/-- C1, amended: for an input with a `Financial Loss (in Million $)` column
and no severity column, normalization yields `attack_severity` 9 for
loss > 100, 7 for loss > 50, 5 for loss > 10 and otherwise 2 — so 9 at
loss 120, 7 at 60, 5 at 20, and 2 (not 3) at 5. -/
theorem c1_loss_severity (o : Oracle) (now : Int) (loss : ℚ) (i : Nat) :
    getCell (map_global_schema o now (dfLoss loss)) "attack_severity" i =
      vNum (if loss > 100 then 9 else if loss > 50 then 7
            else if loss > 10 then 5 else 2) := by
  rw [mgs_cell_severity]
  have h1 : hasCol (map_phaseA o now (dfLoss loss)) "attack_severity" = false := by
    rw [sev_hasCol_phaseA]; simp [dfLoss]
  have h2 := sevLevel_hasCol_phaseA o now (dfLoss loss)
  have h3 : getCell (map_phaseA o now (dfLoss loss)) "Severity Level" i =
      vStr (sev_label_of_loss loss) := by
    rw [map_phaseA_eq_pre]
    simp [map_phaseA_pre, getCell, dfLoss, colOr, toNum]
  unfold severity_cell
  rw [h1, h2]
  simp only [Bool.false_eq_true, if_false, if_true]
  rw [h3]
  unfold sev_label_of_loss
  split_ifs <;> decide

set_option maxRecDepth 10000 in
/-- C6, confirmed: a categorical severity label is lowercased and matched by
substring in the fixed order critical/high/medium/low with first match
winning (9/7/5/2, anything else 5); in particular `Critical` gives 9, `hIgH`
gives 7, and a label containing both `critical` and `low` gives 9. -/
theorem c6_label_severity :
    (∀ (o : Oracle) (now : Int) (s : String) (i : Nat),
      getCell (map_global_schema o now (dfSev s)) "attack_severity" i =
        vNum (if strContains (strLower s) "critical" then 9
              else if strContains (strLower s) "high" then 7
              else if strContains (strLower s) "medium" then 5
              else if strContains (strLower s) "low" then 2 else 5))
    ∧ getCell (map_global_schema oracle0 0 (dfSev "Critical")) "attack_severity" 0 = vNum 9
    ∧ getCell (map_global_schema oracle0 0 (dfSev "hIgH")) "attack_severity" 0 = vNum 7
    ∧ getCell (map_global_schema oracle0 0 (dfSev "critically low")) "attack_severity" 0 = vNum 9 := by
  refine ⟨fun o now s i => ?_, by decide, by decide, by decide⟩
  rw [mgs_cell_severity]
  have h1 : hasCol (map_phaseA o now (dfSev s)) "attack_severity" = false := by
    rw [sev_hasCol_phaseA]; simp [dfSev]
  have h2 := sevLevel_hasCol_phaseA o now (dfSev s)
  have h3 : getCell (map_phaseA o now (dfSev s)) "Severity Level" i = vStr s := by
    rw [map_phaseA_eq_pre]
    simp [map_phaseA_pre, getCell, dfSev, colOr]
  unfold severity_cell
  rw [h1, h2]
  simp only [Bool.false_eq_true, if_false, if_true]
  rw [h3]
  rfl

/-- C7, confirmed: schema detection is a fixed priority order over the
column set, first match winning — `Country` plus `Financial Loss` selects
the full global mapping (even when `Timestamp` and `Attack Type` are also
present), otherwise `Timestamp` plus `Attack Type` selects the minimal
timestamp coercion, and otherwise the global mapping is applied best-effort. -/
theorem c7_schema_detection (o : Oracle) (now : Int) (df : DF) :
    ((hasCol df "Country" && hasCol df "Financial Loss (in Million $)") = true →
      load_best_dataset o now df = map_global_schema o now df)
    ∧ ((hasCol df "Country" && hasCol df "Financial Loss (in Million $)") = false →
        (hasCol df "Timestamp" && hasCol df "Attack Type") = true →
        load_best_dataset o now df = coerce_timestamp now df)
    ∧ ((hasCol df "Country" && hasCol df "Financial Loss (in Million $)") = false →
        (hasCol df "Timestamp" && hasCol df "Attack Type") = false →
        load_best_dataset o now df = map_global_schema o now df) := by
  unfold load_best_dataset
  exact ⟨fun h1 => by simp [h1], fun h1 h2 => by simp [h1, h2],
    fun h1 h2 => by simp [h1, h2]⟩

/-- C7, witness: a table carrying all four signal columns takes the global
branch (priority over the canonical-like signals), and one carrying only
`Timestamp` and `Attack Type` takes the minimal-coercion branch. -/
theorem c7_witness :
    load_best_dataset oracle0 0
        ⟨1, [("Country", fun _ => vStr "USA"),
             ("Financial Loss (in Million $)", fun _ => vNum 3),
             ("Timestamp", fun _ => vTime 5),
             ("Attack Type", fun _ => vStr "DDoS")]⟩ =
      map_global_schema oracle0 0
        ⟨1, [("Country", fun _ => vStr "USA"),
             ("Financial Loss (in Million $)", fun _ => vNum 3),
             ("Timestamp", fun _ => vTime 5),
             ("Attack Type", fun _ => vStr "DDoS")]⟩
    ∧ load_best_dataset oracle0 0 dfCanonLike = coerce_timestamp 0 dfCanonLike :=
  ⟨(c7_schema_detection oracle0 0 _).1 (by decide),
   (c7_schema_detection oracle0 0 dfCanonLike).2.1 (by decide) (by decide)⟩

namespace Adapter

theorem timestamp_cell_isTime (now : Int) (m : DF) (i : Nat) :
    ∃ t, timestamp_cell now m i = vTime t := by
  unfold timestamp_cell
  split_ifs <;> exact ⟨_, rfl⟩

theorem severity_cell_isNum (m : DF) (i : Nat) :
    ∃ q, severity_cell m i = vNum q := by
  unfold severity_cell
  split_ifs <;> exact ⟨_, rfl⟩

theorem data_gb_cell_isNum (m : DF) (i : Nat) :
    ∃ q, data_gb_cell m i = vNum q := by
  unfold data_gb_cell
  split_ifs <;> exact ⟨_, rfl⟩

theorem duration_cell_isNum (m : DF) (i : Nat) :
    ∃ q, duration_cell m i = vNum q := ⟨_, rfl⟩

theorem response_cell_isNum (m : DF) (i : Nat) :
    ∃ q, response_cell m i = vNum q := ⟨_, rfl⟩

theorem sev_to_num_cases (s : String) :
    sev_to_num s = 9 ∨ sev_to_num s = 7 ∨ sev_to_num s = 5 ∨ sev_to_num s = 2 := by
  unfold sev_to_num
  split_ifs <;> simp

end Adapter

/-- C9, confirmed: normalizing any table — in particular a header-only,
zero-row one — returns (without failing, the normalizer being total) a table
with the same number of rows, exactly the fifteen canonical columns in
order, and typed cells (instants in `timestamp`, numbers in
`attack_severity`, at every index). -/
theorem c9_empty_input (o : Oracle) (now : Int) (df : DF) (h : df.nrows = 0) :
    (map_global_schema o now df).nrows = 0
    ∧ (map_global_schema o now df).cols.map Prod.fst = canonical_fields
    ∧ (∀ i, ∃ t, getCell (map_global_schema o now df) "timestamp" i = vTime t)
    ∧ (∀ i, ∃ q, getCell (map_global_schema o now df) "attack_severity" i = vNum q) := by
  refine ⟨by rw [mgs_nrows, h], mgs_cols o now df, fun i => ?_, fun i => ?_⟩
  · rw [mgs_cell_timestamp]
    exact timestamp_cell_isTime now _ i
  · rw [mgs_cell_severity]
    exact severity_cell_isNum _ i

/-- C9, witness: a header-only single-column zero-row table yields a
zero-row, fully-columned canonical table. -/
theorem c9_witness :
    (map_global_schema oracle0 0 ⟨0, [("Unknown Header", fun _ => vNull)]⟩).nrows = 0
    ∧ (map_global_schema oracle0 0 ⟨0, [("Unknown Header", fun _ => vNull)]⟩).cols.map
        Prod.fst = canonical_fields
    ∧ (∀ i, ∃ t, getCell (map_global_schema oracle0 0
        ⟨0, [("Unknown Header", fun _ => vNull)]⟩) "timestamp" i = vTime t)
    ∧ (∀ i, ∃ q, getCell (map_global_schema oracle0 0
        ⟨0, [("Unknown Header", fun _ => vNull)]⟩) "attack_severity" i = vNum q) :=
  c9_empty_input oracle0 0 _ rfl

set_option maxRecDepth 10000 in
/-- C5, counterexample: an input that supplies its own numeric
`attack_severity` column is passed through `to_numeric(...).fillna(5)` with
no clamping (line 223), so severity 42 survives normalization, outside
[1,10]. -/
theorem c5_counterexample :
    getCell (map_global_schema oracle0 0 (dfSevNum 42)) "attack_severity" 0 = vNum 42
    ∧ ¬ ∃ k : ℤ, getCell (map_global_schema oracle0 0 (dfSevNum 42)) "attack_severity" 0 =
        vNum (k : ℚ) ∧ 1 ≤ k ∧ k ≤ 10 := by
  have h42 : getCell (map_global_schema oracle0 0 (dfSevNum 42)) "attack_severity" 0 =
      vNum 42 := by decide
  refine ⟨h42, ?_⟩
  rintro ⟨k, hk, h1, h10⟩
  rw [h42] at hk
  have : (k : ℚ) = 42 := by injection hk.symm
  have : k = 42 := by exact_mod_cast this
  omega

/-- C5, amended: whenever the input does not supply an `attack_severity`
column, every normalized severity is an integer in [1,10] (it always comes
from the synthesized-or-given `Severity Level` label via `sev_to_num`); an
input `attack_severity` column, however, passes through unclamped. -/
theorem c5_severity_bounds (o : Oracle) (now : Int) (df : DF) (i : Nat)
    (h : hasCol df "attack_severity" = false) :
    ∃ k : ℤ, getCell (map_global_schema o now df) "attack_severity" i = vNum (k : ℚ)
      ∧ 1 ≤ k ∧ k ≤ 10 := by
  rw [mgs_cell_severity]
  unfold severity_cell
  rw [sev_hasCol_phaseA, h, sevLevel_hasCol_phaseA]
  simp only [Bool.false_eq_true, if_false, if_true]
  rcases sev_to_num_cases
      (strLower (pyStr (getCell (map_phaseA o now df) "Severity Level" i))) with
    h9 | h7 | h5 | h2
  · exact ⟨9, by rw [h9]; norm_num, by norm_num, by norm_num⟩
  · exact ⟨7, by rw [h7]; norm_num, by norm_num, by norm_num⟩
  · exact ⟨5, by rw [h5]; norm_num, by norm_num, by norm_num⟩
  · exact ⟨2, by rw [h2]; norm_num, by norm_num, by norm_num⟩

/-- C5, witness: the bound holds concretely for a table carrying only a
categorical severity label. -/
theorem c5_witness :
    ∃ k : ℤ, getCell (map_global_schema oracle0 0 (dfSev "Critical"))
        "attack_severity" 0 = vNum (k : ℚ) ∧ 1 ≤ k ∧ k ≤ 10 :=
  c5_severity_bounds oracle0 0 (dfSev "Critical") 0 (by decide)

set_option maxRecDepth 40000 in
/-- C3, counterexample: re-normalizing an already-canonical (lowercase)
table does not preserve the timestamp — the adapter looks for a capitalized
`Timestamp` column, finds none, installs the normalization instant, and the
standardized `timestamp` reads that column (lines 51-56 and 188-189). -/
theorem c3_counterexample :
    ¬ (getCell (map_global_schema oracle0 0 canonicalDF1) "timestamp" 0 =
        getCell canonicalDF1 "timestamp" 0) := by
  decide

/-- C3, amended: normalizing an already-canonical table preserves
attack_type, location, industry, attack_severity, data_compromised_GB,
attack_duration_min, response_time_min, outcome, mitigation_method,
security_tools_used and user_role row by row; but timestamp is replaced by
the normalization instant, and target_system, attacker_ip and target_ip are
re-synthesized placeholders (the adapter keys on `Device Information` and
`Source/Destination IP Address`, which the lowercase shape lacks). -/
theorem c3_renormalization (o : Oracle) (now : Int) (n : Nat) (fts : Nat → Int)
    (fat ftg flo fin fout faip ftip fmit fsec fusr : Nat → String)
    (fsev fgb fdur frsp : Nat → ℚ) (i : Nat) :
    getCell (map_global_schema o now (canonicalDF n fts fat ftg flo fin fout faip
        ftip fmit fsec fusr fsev fgb fdur frsp)) "attack_type" i = vStr (fat i)
    ∧ getCell (map_global_schema o now (canonicalDF n fts fat ftg flo fin fout faip
        ftip fmit fsec fusr fsev fgb fdur frsp)) "location" i = vStr (flo i)
    ∧ getCell (map_global_schema o now (canonicalDF n fts fat ftg flo fin fout faip
        ftip fmit fsec fusr fsev fgb fdur frsp)) "industry" i = vStr (fin i)
    ∧ getCell (map_global_schema o now (canonicalDF n fts fat ftg flo fin fout faip
        ftip fmit fsec fusr fsev fgb fdur frsp)) "attack_severity" i = vNum (fsev i)
    ∧ getCell (map_global_schema o now (canonicalDF n fts fat ftg flo fin fout faip
        ftip fmit fsec fusr fsev fgb fdur frsp)) "data_compromised_GB" i = vNum (fgb i)
    ∧ getCell (map_global_schema o now (canonicalDF n fts fat ftg flo fin fout faip
        ftip fmit fsec fusr fsev fgb fdur frsp)) "attack_duration_min" i = vNum (fdur i)
    ∧ getCell (map_global_schema o now (canonicalDF n fts fat ftg flo fin fout faip
        ftip fmit fsec fusr fsev fgb fdur frsp)) "response_time_min" i = vNum (frsp i)
    ∧ getCell (map_global_schema o now (canonicalDF n fts fat ftg flo fin fout faip
        ftip fmit fsec fusr fsev fgb fdur frsp)) "outcome" i = vStr (fout i)
    ∧ getCell (map_global_schema o now (canonicalDF n fts fat ftg flo fin fout faip
        ftip fmit fsec fusr fsev fgb fdur frsp)) "mitigation_method" i = vStr (fmit i)
    ∧ getCell (map_global_schema o now (canonicalDF n fts fat ftg flo fin fout faip
        ftip fmit fsec fusr fsev fgb fdur frsp)) "security_tools_used" i = vStr (fsec i)
    ∧ getCell (map_global_schema o now (canonicalDF n fts fat ftg flo fin fout faip
        ftip fmit fsec fusr fsev fgb fdur frsp)) "user_role" i = vStr (fusr i)
    ∧ getCell (map_global_schema o now (canonicalDF n fts fat ftg flo fin fout faip
        ftip fmit fsec fusr fsev fgb fdur frsp)) "timestamp" i = vTime now
    ∧ getCell (map_global_schema o now (canonicalDF n fts fat ftg flo fin fout faip
        ftip fmit fsec fusr fsev fgb fdur frsp)) "target_system" i =
        vStr (device_types.getD (o.device i % device_types.length) "")
    ∧ getCell (map_global_schema o now (canonicalDF n fts fat ftg flo fin fout faip
        ftip fmit fsec fusr fsev fgb fdur frsp)) "attacker_ip" i = vStr (o.srcIp i)
    ∧ getCell (map_global_schema o now (canonicalDF n fts fat ftg flo fin fout faip
        ftip fmit fsec fusr fsev fgb fdur frsp)) "target_ip" i = vStr (o.dstIp i) := by
  refine ⟨?_, ?_, ?_, ?_, ?_, ?_, ?_, ?_, ?_, ?_, ?_, ?_, ?_, ?_, ?_⟩
  · rw [mgs_cell_attack_type, map_phaseA_eq_pre]
    simp [map_phaseA_pre, canonicalDF, attack_type_cell, getCell, colOr, pyStr]
  · rw [mgs_cell_location, map_phaseA_eq_pre]
    simp [map_phaseA_pre, canonicalDF, location_cell, getCell, colOr, pyStr]
  · rw [mgs_cell_industry, map_phaseA_eq_pre]
    simp [map_phaseA_pre, canonicalDF, industry_cell, getCell, colOr]
  · rw [mgs_cell_severity, map_phaseA_eq_pre]
    simp [map_phaseA_pre, canonicalDF, severity_cell, getCell, colOr, toNum]
  · rw [mgs_cell_data_gb, map_phaseA_eq_pre]
    simp [map_phaseA_pre, canonicalDF, data_gb_cell, getCell, colOr, toNum]
  · rw [mgs_cell_duration, map_phaseA_eq_pre]
    simp [map_phaseA_pre, canonicalDF, duration_cell, getCell, colOr, toNum]
  · rw [mgs_cell_response, map_phaseA_eq_pre]
    simp [map_phaseA_pre, canonicalDF, response_cell, getCell, colOr, toNum]
  · rw [mgs_cell_outcome, map_phaseA_eq_pre]
    simp [map_phaseA_pre, canonicalDF, outcome_cell, getCell, colOr]
  · rw [mgs_cell_mitigation, map_phaseA_eq_pre]
    simp [map_phaseA_pre, canonicalDF, mitigation_cell, getCell, colOr]
  · rw [mgs_cell_tools, map_phaseA_eq_pre]
    simp [map_phaseA_pre, canonicalDF, tools_cell, getCell, colOr]
  · rw [mgs_cell_user_role, map_phaseA_eq_pre]
    simp [map_phaseA_pre, canonicalDF, user_role_cell, getCell, colOr]
  · rw [mgs_cell_timestamp, map_phaseA_eq_pre]
    simp [map_phaseA_pre, canonicalDF, timestamp_cell, getCell, colOr, toTime]
  · rw [mgs_cell_target_system, map_phaseA_eq_pre]
    simp [map_phaseA_pre, canonicalDF, target_system_cell, getCell, colOr, pyStr]
  · rw [mgs_cell_attacker_ip, map_phaseA_eq_pre]
    simp [map_phaseA_pre, canonicalDF, attacker_ip_cell, getCell, colOr]
  · rw [mgs_cell_target_ip, map_phaseA_eq_pre]
    simp [map_phaseA_pre, canonicalDF, target_ip_cell, getCell, colOr]

set_option maxRecDepth 10000 in
/-- C2, counterexample: the branch of `load_best_dataset` taken when the
input already has `Timestamp` and `Attack Type` columns only coerces the
timestamp (lines 323-327); canonical fields absent from the input — here
`attack_severity` — are absent from its output, refuting totality for that
branch. -/
theorem c2_counterexample :
    ¬ (hasCol (load_best_dataset oracle0 0 dfCanonLike) "attack_severity" = true) := by
  decide

/-- C2, amended: totality holds for the outputs of `map_global_schema` on
inputs with no missing cells — every canonical field is present and
non-null in every row, with `timestamp` an instant, `attack_type`,
`target_system` and `location` strings, and the four numeric fields numbers;
the minimal branch of `load_best_dataset`, by contrast, returns the input
with only the timestamp coerced, so fields absent there stay absent. -/
theorem c2_totality (o : Oracle) (now : Int) (df : DF) (h : NullFree df) :
    (∀ name ∈ canonical_fields,
      hasCol (map_global_schema o now df) name = true
      ∧ ∀ i, getCell (map_global_schema o now df) name i ≠ vNull)
    ∧ (∀ i, ∃ t, getCell (map_global_schema o now df) "timestamp" i = vTime t)
    ∧ (∀ i, ∃ s, getCell (map_global_schema o now df) "attack_type" i = vStr s)
    ∧ (∀ i, ∃ s, getCell (map_global_schema o now df) "target_system" i = vStr s)
    ∧ (∀ i, ∃ s, getCell (map_global_schema o now df) "location" i = vStr s)
    ∧ (∀ i, ∃ q, getCell (map_global_schema o now df) "attack_severity" i = vNum q)
    ∧ (∀ i, ∃ q, getCell (map_global_schema o now df) "data_compromised_GB" i = vNum q)
    ∧ (∀ i, ∃ q, getCell (map_global_schema o now df) "attack_duration_min" i = vNum q)
    ∧ (∀ i, ∃ q, getCell (map_global_schema o now df) "response_time_min" i = vNum q) := by
  have hm : NullFree (map_phaseA o now df) := NullFree_phaseA o now df h
  refine ⟨?_, fun i => ?_, fun i => ?_, fun i => ?_, fun i => ?_, fun i => ?_,
    fun i => ?_, fun i => ?_, fun i => ?_⟩
  · intro name hname
    refine ⟨mgs_hasCol_canonical o now df name hname, fun i => ?_⟩
    fin_cases hname
    · rw [mgs_cell_timestamp]
      obtain ⟨t, ht⟩ := timestamp_cell_isTime now (map_phaseA o now df) i
      rw [ht]; simp
    · rw [mgs_cell_attack_type]; simp
    · rw [mgs_cell_target_system]; simp
    · rw [mgs_cell_location]; simp
    · rw [mgs_cell_industry]
      exact colOr_nonnull hm _ (colOr_nonnull hm _ (colOr_nonnull hm _
        (fun j => by simp))) i
    · rw [mgs_cell_severity]
      obtain ⟨q, hq⟩ := severity_cell_isNum (map_phaseA o now df) i
      rw [hq]; simp
    · rw [mgs_cell_data_gb]
      obtain ⟨q, hq⟩ := data_gb_cell_isNum (map_phaseA o now df) i
      rw [hq]; simp
    · rw [mgs_cell_outcome]
      unfold outcome_cell
      rw [actionTaken_hasCol_phaseA]
      simp only [if_true]
      exact colOr_nonnull_of_has hm (actionTaken_hasCol_phaseA o now df) _ i
    · rw [mgs_cell_attacker_ip]
      unfold attacker_ip_cell
      exact colOr_nonnull_of_has hm (srcIp_hasCol_phaseA o now df) _ i
    · rw [mgs_cell_target_ip]
      unfold target_ip_cell
      exact colOr_nonnull_of_has hm (dstIp_hasCol_phaseA o now df) _ i
    · rw [mgs_cell_mitigation]
      exact colOr_nonnull hm _ (colOr_nonnull hm _ (colOr_nonnull hm _
        (colOr_nonnull hm _ (fun j => by simp)))) i
    · rw [mgs_cell_duration]
      obtain ⟨q, hq⟩ := duration_cell_isNum (map_phaseA o now df) i
      rw [hq]; simp
    · rw [mgs_cell_response]
      obtain ⟨q, hq⟩ := response_cell_isNum (map_phaseA o now df) i
      rw [hq]; simp
    · rw [mgs_cell_tools]
      exact colOr_nonnull hm _ (colOr_nonnull hm _ (fun j => by simp)) i
    · rw [mgs_cell_user_role]
      exact colOr_nonnull hm _ (fun j => by simp) i
  · rw [mgs_cell_timestamp]; exact timestamp_cell_isTime now _ i
  · rw [mgs_cell_attack_type]; exact ⟨_, rfl⟩
  · rw [mgs_cell_target_system]; exact ⟨_, rfl⟩
  · rw [mgs_cell_location]; exact ⟨_, rfl⟩
  · rw [mgs_cell_severity]; exact severity_cell_isNum _ i
  · rw [mgs_cell_data_gb]; exact data_gb_cell_isNum _ i
  · rw [mgs_cell_duration]; exact duration_cell_isNum _ i
  · rw [mgs_cell_response]; exact response_cell_isNum _ i

/-- C2, witness: totality of `map_global_schema` instantiated at a concrete
null-free (columnless, one-row) input. -/
theorem c2_witness :
    (∀ name ∈ canonical_fields,
      hasCol (map_global_schema oracle0 0 ⟨1, []⟩) name = true
      ∧ ∀ i, getCell (map_global_schema oracle0 0 ⟨1, []⟩) name i ≠ vNull)
    ∧ (∀ i, ∃ t, getCell (map_global_schema oracle0 0 ⟨1, []⟩) "timestamp" i = vTime t)
    ∧ (∀ i, ∃ s, getCell (map_global_schema oracle0 0 ⟨1, []⟩) "attack_type" i = vStr s)
    ∧ (∀ i, ∃ s, getCell (map_global_schema oracle0 0 ⟨1, []⟩) "target_system" i = vStr s)
    ∧ (∀ i, ∃ s, getCell (map_global_schema oracle0 0 ⟨1, []⟩) "location" i = vStr s)
    ∧ (∀ i, ∃ q, getCell (map_global_schema oracle0 0 ⟨1, []⟩) "attack_severity" i = vNum q)
    ∧ (∀ i, ∃ q, getCell (map_global_schema oracle0 0 ⟨1, []⟩) "data_compromised_GB" i = vNum q)
    ∧ (∀ i, ∃ q, getCell (map_global_schema oracle0 0 ⟨1, []⟩) "attack_duration_min" i = vNum q)
    ∧ (∀ i, ∃ q, getCell (map_global_schema oracle0 0 ⟨1, []⟩) "response_time_min" i = vNum q) :=
  c2_totality oracle0 0 ⟨1, []⟩ (fun c f hf i => by simp at hf)

namespace Gen

theorem randint_bounds (a b : Nat) (g : Nat → Nat) (k : Nat) (h : a ≤ b) :
    a ≤ randint a b g k ∧ randint a b g k ≤ b := by
  unfold randint
  have hm : g k % (b + 1 - a) < b + 1 - a := Nat.mod_lt _ (by omega)
  omega

end Gen

/-- C8, confirmed: the generated severity is drawn from the per-type range
of `severity_weights` — [7,10] for Ransomware, [3,6] for Brute Force — and
from the default range [3,8] for any drawn type absent from that table. -/
theorem c8_severity_ranges (g : Nat → Nat) (p : Nat) :
    ((generate_attack_record g p).attack_type = "Ransomware" →
      7 ≤ (generate_attack_record g p).attack_severity
      ∧ (generate_attack_record g p).attack_severity ≤ 10)
    ∧ ((generate_attack_record g p).attack_type = "Brute Force" →
      3 ≤ (generate_attack_record g p).attack_severity
      ∧ (generate_attack_record g p).attack_severity ≤ 6)
    ∧ (severity_weights.lookup (generate_attack_record g p).attack_type = none →
      3 ≤ (generate_attack_record g p).attack_severity
      ∧ (generate_attack_record g p).attack_severity ≤ 8) := by
  have hat : (generate_attack_record g p).attack_type = attack_type_draw g p := rfl
  have hsev : (generate_attack_record g p).attack_severity =
      attack_severity_draw g p := rfl
  refine ⟨fun h => ?_, fun h => ?_, fun h => ?_⟩ <;>
    rw [hat] at h <;> rw [hsev] <;>
    unfold attack_severity_draw severity_range <;> rw [h]
  · have hl : severity_weights.lookup "Ransomware" = some (7, 10) := by decide
    rw [hl]
    exact randint_bounds 7 10 g (p+6) (by norm_num)
  · have hl : severity_weights.lookup "Brute Force" = some (3, 6) := by decide
    rw [hl]
    exact randint_bounds 3 6 g (p+6) (by norm_num)
  · exact randint_bounds 3 8 g (p+6) (by norm_num)

/-- C8, witness: concrete streams realizing a Ransomware draw, a Brute
Force draw, and a draw of a type absent from the table
(Man-in-the-Middle), each with the claimed range containment. -/
theorem c8_witness :
    (7 ≤ (generate_attack_record (fun _ => 1) 0).attack_severity
      ∧ (generate_attack_record (fun _ => 1) 0).attack_severity ≤ 10)
    ∧ (3 ≤ (generate_attack_record (fun _ => 7) 0).attack_severity
      ∧ (generate_attack_record (fun _ => 7) 0).attack_severity ≤ 6)
    ∧ (3 ≤ (generate_attack_record (fun _ => 5) 0).attack_severity
      ∧ (generate_attack_record (fun _ => 5) 0).attack_severity ≤ 8) :=
  ⟨(c8_severity_ranges (fun _ => 1) 0).1 (by decide),
   (c8_severity_ranges (fun _ => 7) 0).2.1 (by decide),
   (c8_severity_ranges (fun _ => 5) 0).2.2 (by decide)⟩

/-- C10, confirmed: `attacker_origin` is `Internal` exactly when the drawn
attack source contains the substring `Insider` — which among the fixed
vocabulary happens only for `Insider Threat` — and `External` otherwise. -/
theorem c10_attacker_origin (g : Nat → Nat) (p : Nat) :
    ((generate_attack_record g p).attacker_origin = "Internal" ↔
      attack_source_draw g p = "Insider Threat")
    ∧ ((generate_attack_record g p).attacker_origin = "External" ↔
      ¬ attack_source_draw g p = "Insider Threat") := by
  have ho : (generate_attack_record g p).attacker_origin =
      (if strContains (attack_source_draw g p) "Insider" then "Internal"
       else "External") := rfl
  rw [ho]
  unfold attack_source_draw choice
  have hlen : ATTACK_SOURCES.length = 11 := rfl
  rw [hlen]
  set k := g (p+11) % 11 with hk
  have hk11 : k < 11 := by rw [hk]; exact Nat.mod_lt _ (by norm_num)
  interval_cases k <;> exact ⟨by decide, by decide⟩

/-- C10, witness: the stream picking source index 2 draws `Insider Threat`
and yields an `Internal` origin; index 3 draws `Cybercriminal` and yields
`External`. -/
theorem c10_witness :
    (generate_attack_record (fun _ => 2) 0).attacker_origin = "Internal"
    ∧ (generate_attack_record (fun _ => 3) 0).attacker_origin = "External" :=
  ⟨(c10_attacker_origin (fun _ => 2) 0).1.mpr (by decide),
   (c10_attacker_origin (fun _ => 3) 0).2.mpr (by decide)⟩

/-- C4: the source seeds the one process-wide `random` stream once
(`random.seed(42)`, line 13) and `generate_timestamp` draws its offset from
that same stream (line 95), despite the comments of lines 11 and 92 — so
two runs from the same seed produce identical datasets, timestamps
included, contradicting the claim (and the documented intent) that
timestamps differ across runs while categorical draws repeat. -/
theorem c4_seed_determinism (g1 g2 : Nat → Nat) (n : Nat) (h : ∀ k, g1 k = g2 k) :
    generate_dataset g1 n = generate_dataset g2 n
    ∧ ∀ p, (generate_attack_record g1 p).timestamp =
        (generate_attack_record g2 p).timestamp := by
  have he : g1 = g2 := funext h
  subst he
  exact ⟨rfl, fun p => rfl⟩

/-- C4, witness: two runs driven by equal streams agree on the whole
dataset and on every timestamp. -/
theorem c4_witness :
    generate_dataset (fun k => k) 5 = generate_dataset (fun k => k) 5
    ∧ ∀ p, (generate_attack_record (fun k => k) p).timestamp =
        (generate_attack_record (fun k => k) p).timestamp :=
  c4_seed_determinism (fun k => k) (fun k => k) 5 (fun _ => rfl)

